import Mathlib

/-!
Verification of the haaska directive-dispatch and entity-capability layer
(src/haaska.py) through a shallow embedding.  Machine floats of the Python
source are modelled as rationals; the hub HTTP client is modelled by passing
the fetched state records explicitly and recording the POSTed service calls
in a trace.  Python exceptions are modelled with an error type carried in
Except: the exception classes nested in ConnectedHomeCall map to dedicated
constructors, every other Python exception (KeyError, NameError, TypeError,
AttributeError) to a generic constructor tagged with the exception kind,
exactly as the two except branches of ConnectedHomeCall.invoke distinguish
them.  Wall-clock data (get_utc_timestamp, get_uuid) is not modelled: the
message id is a parameter and the timeOfSample field of a context property
is omitted, since no verified statement depends on either.
-/

/-- Python exceptions as ConnectedHomeCall.invoke distinguishes them:
chValueOutOfRange is ConnectedHomeCall.ValueOutOfRangeError (lines 148-151),
whose payload maps minimumValue and maximumValue; pyError is any exception
that is not a ConnectedHomeException, tagged with the Python exception kind
(the catch-all branch of invoke, lines 182-185).  The ConnectedHomeException
base class itself is never raised anywhere in the source. -/
inductive PyErr where
  | chValueOutOfRange (minimumValue maximumValue : ℚ)
  | pyError (kind : String)
deriving DecidableEq, Repr

/-- One POST services/... call made through Entity._call_service (line 664),
with the JSON body fields that the calling adapter method fills in.  Only the
services the verified claims touch are given constructors. -/
inductive ServiceCall where
  | setTemperature (temperature : ℚ) (operation_mode : Option String)
  | setOperationMode (operation_mode : String)
  | fanSetSpeed (speed : String)
  | lightTurnOnBrightness (brightness : ℚ)
deriving DecidableEq, Repr

/-- Value of a context property: plain string, plain number, a temperature
object with value and scale, or the connectivity object with value OK. -/
inductive PropValue where
  | str (s : String)
  | num (q : ℚ)
  | tempVal (value : ℚ) (scale : String)
  | connOK
deriving DecidableEq, Repr

/-- One element of self.context_properties: namespace, property name, value
and the fixed uncertaintyInMilliseconds 200.  The timeOfSample wall-clock
string is omitted (see the file comment). -/
structure ContextProp where
  ns : String
  name : String
  value : PropValue
  uncertaintyInMilliseconds : Nat
deriving DecidableEq, Repr

/-- Header of the response envelope built at the top of
ConnectedHomeCall.invoke (lines 157-161). -/
structure EventHeader where
  ns : String
  name : String
  payloadVersion : String
  messageId : String
  correlationToken : Option String
deriving DecidableEq, Repr

/-- Response payload: the empty object, or the payload of
ValueOutOfRangeError with its minimumValue and maximumValue keys. -/
inductive RPayload where
  | emptyObj
  | vOOR (minimumValue maximumValue : ℚ)
deriving DecidableEq, Repr

/-- The response envelope returned by ConnectedHomeCall.invoke: event.header,
event.payload, the optional event.endpoint echo (endpointId only) and the
optional top-level context.  context = none models the context key being
absent from the returned dict. -/
structure Envelope where
  header : EventHeader
  payload : RPayload
  endpoint : Option String
  context : Option (List ContextProp)
deriving DecidableEq, Repr

/-- What a directive handler method produces: its return value or the
exception it raised, the service calls it POSTed to the hub in order, and
the context properties it appended to self.context_properties in order
(kept even when the handler then raised, as the Python list on self is). -/
structure HandlerOut where
  result : Except PyErr (Option RPayload)
  calls : List ServiceCall
  props : List ContextProp
deriving Repr

/-- Feature-flag bit constants (lines 43-45 of the source). -/
def LIGHT_SUPPORT_COLOR_TEMP : Nat := 2

def LIGHT_SUPPORT_RGB_COLOR : Nat := 16

/-- convert_temp (lines 630-636) on a plain number: identity when the units
agree, Celsius to Fahrenheit via t * 1.8 + 32, otherwise the inverse. -/
def convert_tempQ (temp : ℚ) (from_unit to_unit : String) : ℚ :=
  if from_unit == to_unit then temp
  else if from_unit == "°C" then temp * (9/5) + 32
  else (temp - 32) / (9/5)

/-- convert_temp (lines 630-636): the source first returns temp unchanged
when temp is None; on a number it behaves as convert_tempQ. -/
def convert_temp (temp : Option ℚ) (from_unit to_unit : String) : Option ℚ :=
  temp.map (fun t => convert_tempQ t from_unit to_unit)

/-- get_temp_scale (lines 638-642). -/
def get_temp_scale (unit : String) : String :=
  if unit == "°C" then "CELSIUS" else "FAHRENHEIT"

/-- Python str.upper() on the ASCII strings this code handles: uppercase
character by character. -/
def str_toUpper (s : String) : String := String.mk (s.data.map Char.toUpper)

/-- Python str.lower() on the ASCII strings this code handles: lowercase
character by character. -/
def str_toLower (s : String) : String := String.mk (s.data.map Char.toLower)

/-- FanEntity.set_percentage (lines 1007-1015): the speed string sent to
fan/set_speed.  The source initializes speed = "off" and then reassigns
through the if/elif chain, so the initializer survives only when
val > 100; in particular val = 0 takes the val <= 33 branch. -/
def fan_set_percentage (val : ℚ) : String :=
  if val ≤ 33 then "low"
  else if val ≤ 66 then "medium"
  else if val ≤ 100 then "high"
  else "off"

/-- FanEntity.get_percentage (lines 995-1005) as a function of the speed
attribute of the fetched state; the Python function falls off the end and
returns None for any other speed string. -/
def fan_get_percentage (speed : String) : Option ℚ :=
  if speed == "off" then some 0
  else if speed == "low" then some 33
  else if speed == "medium" then some 66
  else if speed == "high" then some 100
  else none

/-- LightEntity.set_percentage (lines 910-912): the brightness value sent in
the body of light/turn_on. -/
def light_set_percentage (val : ℚ) : ℚ := val / 100 * 255

/-- LightEntity.get_percentage (lines 905-908) as a function of the
brightness attribute of the fetched state. -/
def light_get_percentage (brightness : ℚ) : ℚ := brightness / 255 * 100

/-- The concrete Entity subclasses of the source (lines 657-1015); used as
the value type of the DOMAINS table and as the target of the runtime
hasattr introspection. -/
inductive EntityClass where
  | ToggleEntity
  | InputSliderEntity
  | GarageDoorEntity
  | CoverEntity
  | LockEntity
  | ScriptEntity
  | SceneEntity
  | LightEntity
  | MediaPlayerEntity
  | ClimateEntity
  | FanEntity
deriving DecidableEq, Repr

/-- hasattr(self, m) for the adapter methods that get_capabilities and
ReportState introspect, with inheritance resolved: ToggleEntity and its
subclasses GarageDoorEntity, CoverEntity, ScriptEntity, SceneEntity carry
turn_on/turn_off; LightEntity, MediaPlayerEntity and FanEntity extend
ToggleEntity with percentage accessors (LightEntity also with the color
methods); InputSliderEntity, LockEntity and ClimateEntity extend Entity
directly with their own method sets. -/
def hasMethod (cls : EntityClass) (m : String) : Bool :=
  match cls with
  | .ToggleEntity | .GarageDoorEntity | .CoverEntity | .ScriptEntity | .SceneEntity =>
      m == "turn_on" || m == "turn_off"
  | .InputSliderEntity =>
      m == "get_percentage" || m == "set_percentage"
  | .LockEntity =>
      m == "set_lock_state" || m == "get_lock_state"
  | .LightEntity =>
      m == "turn_on" || m == "turn_off" || m == "get_percentage" ||
      m == "set_percentage" || m == "get_color_temperature" ||
      m == "set_color" || m == "set_color_temperature"
  | .MediaPlayerEntity | .FanEntity =>
      m == "turn_on" || m == "turn_off" || m == "get_percentage" ||
      m == "set_percentage"
  | .ClimateEntity =>
      m == "turn_on" || m == "turn_off" || m == "get_current_temperature" ||
      m == "get_temperature" || m == "set_temperature"

/-- The DOMAINS table (lines 1017-1033): device domain string to adapter
class. -/
def DOMAINS : List (String × EntityClass) :=
  [("garage_door", .GarageDoorEntity),
   ("group", .ToggleEntity),
   ("input_boolean", .ToggleEntity),
   ("input_slider", .InputSliderEntity),
   ("switch", .ToggleEntity),
   ("fan", .FanEntity),
   ("cover", .CoverEntity),
   ("lock", .LockEntity),
   ("script", .ScriptEntity),
   ("scene", .SceneEntity),
   ("light", .LightEntity),
   ("media_player", .MediaPlayerEntity),
   ("climate", .ClimateEntity),
   ("alert", .ToggleEntity),
   ("automation", .ToggleEntity)]

/-- One capability descriptor as appended by Entity.get_capabilities: each
source descriptor is a dict with type AlexaInterface, version 3, the
interface name, and (except for the bare Alexa descriptor) a properties
object listing the supported property names with proactivelyReported false
and retrievable true; only the interface name and supported property names
vary, so the descriptor is modelled by those. -/
structure Capability where
  interface : String
  supportedProps : List String
deriving DecidableEq, Repr

/-- The EndpointHealth descriptor appended unconditionally at the end of
Entity.get_capabilities (lines 817-831). -/
def endpointHealthCap : Capability := ⟨"Alexa.EndpointHealth", ["connectivity"]⟩

/-- Entity.get_capabilities (lines 671-833): the descriptor list is built by
hasattr introspection of the adapter instance, plus the light-domain color
descriptors gated by the supported_features bits, with the bare Alexa
descriptor first and EndpointHealth appended last.  entity_domain is the
part of the entity id before the first dot (set in Entity.__init__). -/
def get_capabilities (cls : EntityClass) (entity_domain : String)
    (supported_features : Nat) : List Capability :=
  [⟨"Alexa", []⟩]
  ++ (if hasMethod cls "turn_on" || hasMethod cls "turn_off" then
        [⟨"Alexa.PowerController", ["powerState"]⟩] else [])
  ++ (if hasMethod cls "set_percentage" || hasMethod cls "get_percentage" then
        [⟨"Alexa.PercentageController", ["percentage"]⟩,
         ⟨"Alexa.BrightnessController", ["brightness"]⟩] else [])
  ++ (if hasMethod cls "get_current_temperature" || hasMethod cls "get_temperature" then
        [⟨"Alexa.TemperatureSensor", ["temperature"]⟩] else [])
  ++ (if hasMethod cls "set_temperature" then
        [⟨"Alexa.ThermostatController", ["targetSetpoint", "thermostatMode"]⟩] else [])
  ++ (if hasMethod cls "get_lock_state" || hasMethod cls "set_lock_state" then
        [⟨"Alexa.LockController", ["lockState"]⟩] else [])
  ++ (if entity_domain == "light" then
        (if supported_features &&& LIGHT_SUPPORT_RGB_COLOR ≠ 0 then
           [⟨"Alexa.ColorController", ["color"]⟩] else [])
        ++ (if supported_features &&& LIGHT_SUPPORT_COLOR_TEMP ≠ 0 then
              [⟨"Alexa.ColorTemperatureController", ["colorTemperatureInKelvin"]⟩] else [])
      else [])
  ++ [endpointHealthCap]

/-- The capability table of section 4.2/4.3 of the specification, written
from the words of the spec (power for the toggle-style domains and climate,
percentage plus brightness wherever a percentage accessor exists, lock for
lock, temperature sensor and thermostat for climate, the light color
descriptors gated by feature-flag bits 16 and 2, health last). -/
def specInterfaces (domain : String) (features : Nat) : List String :=
  if domain == "light" then
    ["Alexa", "Alexa.PowerController", "Alexa.PercentageController",
     "Alexa.BrightnessController"]
    ++ (if features &&& 16 ≠ 0 then ["Alexa.ColorController"] else [])
    ++ (if features &&& 2 ≠ 0 then ["Alexa.ColorTemperatureController"] else [])
    ++ ["Alexa.EndpointHealth"]
  else if domain == "fan" || domain == "media_player" then
    ["Alexa", "Alexa.PowerController", "Alexa.PercentageController",
     "Alexa.BrightnessController", "Alexa.EndpointHealth"]
  else if domain == "input_slider" then
    ["Alexa", "Alexa.PercentageController", "Alexa.BrightnessController",
     "Alexa.EndpointHealth"]
  else if domain == "lock" then
    ["Alexa", "Alexa.LockController", "Alexa.EndpointHealth"]
  else if domain == "climate" then
    ["Alexa", "Alexa.PowerController", "Alexa.TemperatureSensor",
     "Alexa.ThermostatController", "Alexa.EndpointHealth"]
  else
    ["Alexa", "Alexa.PowerController", "Alexa.EndpointHealth"]

/-- The attributes of a climate entity state object that the thermostat
handlers read.  min_temp and max_temp are plain numbers as Home Assistant
reports them; temperature (the target) and current_temperature may be None. -/
structure ClimateAttrs where
  unit_of_measurement : String
  min_temp : ℚ
  max_temp : ℚ
  temperature : Option ℚ
  current_temperature : Option ℚ
deriving DecidableEq, Repr

/-- A climate state object fetched with GET states/<id>: the state string
and the attributes the handlers use. -/
structure ClimateState where
  state : String
  attrs : ClimateAttrs
deriving DecidableEq, Repr

/-- ClimateEntity.get_temperature (lines 973-980): the target temperature
converted to Celsius (convert_temp with its default to_unit) and the mode,
which is the state string with idle replaced by off, uppercased. -/
def climate_get_temperature (st : ClimateState) : Option ℚ × String :=
  (convert_temp st.attrs.temperature st.attrs.unit_of_measurement "°C",
   str_toUpper (st.state.replace "idle" "off"))

/-- ClimateEntity.get_current_temperature (lines 966-971). -/
def climate_get_current_temperature (st : ClimateState) : Option ℚ :=
  convert_temp st.attrs.current_temperature st.attrs.unit_of_measurement "°C"

/-- ClimateEntity.set_temperature (lines 982-991): the climate/set_temperature
service call, with the value converted from Celsius back to the device unit
(convert_temp with its default from_unit) and operation_mode included when a
mode string is passed (every caller passes a nonempty, hence truthy, mode). -/
def climate_set_temperature (st : ClimateState) (val : ℚ) (mode : Option String) :
    ServiceCall :=
  .setTemperature (convert_tempQ val "°C" st.attrs.unit_of_measurement) mode

/-- The four canonical mode tokens of the ThermostatController handlers. -/
def allowedModes : List String := ["AUTO", "COOL", "ECO", "HEAT"]

/-- The mode-fixup step shared by lines 440-442 and 484-486: when the mode
reported by get_temperature is not canonical, derive COOL or HEAT by
comparing get_current_temperature against the new target.  In Python a None
current temperature makes the comparison current >= new_temp raise
TypeError, modelled by the error branch. -/
def derive_mode (st : ClimateState) (mode : String) (new_temp : ℚ) :
    Except PyErr String :=
  if allowedModes.contains mode then .ok mode
  else
    match climate_get_current_temperature st with
    | none => .error (.pyError "TypeError")
    | some current => .ok (if current ≥ new_temp then "COOL" else "HEAT")

/-- Alexa.ThermostatController.SetTargetTemperature (lines 426-462): fetch
the state, convert min_temp/max_temp to Celsius, reject a requested
setpoint outside [min_temp, max_temp] with ValueOutOfRangeError before any
service call, otherwise fix up the mode and invoke
climate/set_temperature, appending the targetSetpoint and thermostatMode
context properties.  targetSetpoint is the requested
payload.targetSetpoint.value. -/
def setTargetTemperatureHandler (st : ClimateState) (targetSetpoint : ℚ) :
    HandlerOut :=
  let unit := st.attrs.unit_of_measurement
  let scale := get_temp_scale unit
  let min_temp := convert_tempQ st.attrs.min_temp unit "°C"
  let max_temp := convert_tempQ st.attrs.max_temp unit "°C"
  let mode := (climate_get_temperature st).2
  let new_temp := targetSetpoint
  if new_temp > max_temp ∨ new_temp < min_temp then
    ⟨.error (.chValueOutOfRange min_temp max_temp), [], []⟩
  else
    match derive_mode st mode new_temp with
    | .error e => ⟨.error e, [], []⟩
    | .ok mode2 =>
        ⟨.ok none,
         [climate_set_temperature st new_temp (some (str_toLower mode2))],
         [⟨"Alexa.ThermostatController", "targetSetpoint",
           .tempVal new_temp scale, 200⟩,
          ⟨"Alexa.ThermostatController", "thermostatMode",
           .str (str_toUpper mode2), 200⟩]⟩

/-- Alexa.ThermostatController.AdjustTargetTemperature (lines 464-506):
lines 465-470 fetch the state and compute unit, scale, min_temp, max_temp
and (temperature, mode) without any service call; line 472 then evaluates
new_temp = op(temperature, float(payload.targetSetpointDelta.value)), and
op is an unbound module-level name (the file never defines it), so every
invocation raises NameError here.  The clamp logic of lines 473-481, the
bound check, the mode fixup and the set_temperature call are unreachable. -/
def adjustTargetTemperatureHandler (st : ClimateState) (targetSetpointDelta : ℚ) :
    HandlerOut :=
  let _unit := st.attrs.unit_of_measurement
  let _scale := get_temp_scale _unit
  let _min_temp := convert_tempQ st.attrs.min_temp _unit "°C"
  let _max_temp := convert_tempQ st.attrs.max_temp _unit "°C"
  let _tm := climate_get_temperature st
  let _delta := targetSetpointDelta
  ⟨.error (.pyError "NameError"), [], []⟩

/-- Alexa.ThermostatController.SetThermostatMode (lines 508-522): both
branches of the mode test evaluate self.entity.turn_on respectively
self.entity.turn_off as bare attribute references without calling them, so
no service is invoked; the handler appends the thermostatMode property with
the uppercased requested mode and returns None (success). -/
def setThermostatModeHandler (thermostatMode : String) : HandlerOut :=
  let _turn_attr :=
    if allowedModes.contains thermostatMode then "turn_on" else "turn_off"
  ⟨.ok none, [],
   [⟨"Alexa.ThermostatController", "thermostatMode",
     .str (str_toUpper thermostatMode), 200⟩]⟩

/-- A light entity state object as block 5 of Alexa.ReportState.ReportState
reads it: the state string and the brightness attribute, with none modelling
the brightness key being absent from attributes (its access then raises
KeyError). -/
structure LightState where
  state : String
  brightness : Option ℚ
deriving DecidableEq, Repr

/-- LightEntity.get_percentage (lines 905-908) against a fetched state:
state.attributes.brightness raises KeyError when the key is absent,
otherwise the percentage is brightness / 255 * 100. -/
def light_get_percentage_state (st : LightState) : Except PyErr ℚ :=
  match st.brightness with
  | none => .error (.pyError "KeyError")
  | some b => .ok (light_get_percentage b)

/-- Alexa.ReportState.ReportState (lines 192-272) specialized to a light
entity, for which the hasattr guards resolve as: get_current_temperature,
get_temperature, get_lock_state false (blocks 1-3 skipped);
turn_on/turn_off true and get_temperature false (block 4 appends the
powerState property from the uppercased state string); get_percentage true
(block 5 calls LightEntity.get_percentage, which reads
attributes.brightness and raises KeyError when it is absent, aborting the
handler before the appends of block 5 and of the unconditional
EndpointHealth block). -/
def reportState_light (st : LightState) : HandlerOut :=
  let powerProp : ContextProp :=
    ⟨"Alexa.PowerController", "powerState", .str (str_toUpper st.state), 200⟩
  match light_get_percentage_state st with
  | .error e => ⟨.error e, [], [powerProp]⟩
  | .ok v =>
      ⟨.ok none, [],
       [powerProp,
        ⟨"Alexa.PercentageController", "percentage", .num v, 200⟩,
        ⟨"Alexa.EndpointHealth", "connectivity", .connOK, 200⟩]⟩

/-- The endpointId.replace(of colon by dot) conversion done in
ConnectedHomeCall.__init__ (lines 139-140), character by character. -/
def endpoint_to_entity_id (endpointId : String) : String :=
  String.mk (endpointId.data.map (fun ch => if ch == ':' then '.' else ch))

/-- entity_id.split(on the first dot)[0] as used by mk_entity (line 652):
the prefix of the id before the first dot, the whole id when it has none. -/
def entity_domain_of (entity_id : String) : String :=
  String.mk (entity_id.data.takeWhile (fun ch => ch != '.'))

/-- mk_entity (lines 651-654): look the domain up in DOMAINS and construct
that adapter class; an unknown domain raises KeyError from the dict
subscript. -/
def mk_entity (entity_id : String) : Except PyErr EntityClass :=
  match DOMAINS.lookup (entity_domain_of entity_id) with
  | some cls => .ok cls
  | none => .error (.pyError "KeyError")

/-- The handler classes nested in class Alexa (lines 190-559), as resolved
by operator.attrgetter(namespace) over the allowed table in invoke
(lines 561-571). -/
inductive HandlerClass where
  | ReportState
  | Discovery
  | PowerController
  | BrightnessController
  | PercentageController
  | ColorTemperatureController
  | PowerLevelController
  | ThermostatController
  | TemperatureSensor
  | LockController
deriving DecidableEq, Repr

/-- Resolution of the namespace key to a handler class:
attrgetter(namespace) over allowed reaches exactly the classes nested in
Alexa under their dotted names.  The bare key Alexa resolves to the Alexa
container class itself, which is not a ConnectedHomeCall subclass and whose
instantiation with the six constructor arguments raises TypeError, so it is
not a handler (none); any other key raises AttributeError (none). -/
def lookup_handler_class (key : String) : Option HandlerClass :=
  if key == "Alexa.ReportState" then some .ReportState
  else if key == "Alexa.Discovery" then some .Discovery
  else if key == "Alexa.PowerController" then some .PowerController
  else if key == "Alexa.BrightnessController" then some .BrightnessController
  else if key == "Alexa.PercentageController" then some .PercentageController
  else if key == "Alexa.ColorTemperatureController" then some .ColorTemperatureController
  else if key == "Alexa.PowerLevelController" then some .PowerLevelController
  else if key == "Alexa.ThermostatController" then some .ThermostatController
  else if key == "Alexa.TemperatureSensor" then some .TemperatureSensor
  else if key == "Alexa.LockController" then some .LockController
  else none

/-- The combined-key special case at the top of invoke (lines 564-565): a
ReportState directive under the bare Alexa namespace is looked up under
Alexa.ReportState. -/
def resolve_invoke_key (ns name : String) : String :=
  if ns == "Alexa" && name == "ReportState" then ns ++ "." ++ name else ns

/-- The namespace rewrite of ConnectedHomeCall.__init__ (lines 125-132):
self.namespace is reset to Alexa for ReportState and SetTargetTemperature
directives and kept otherwise. -/
def ctor_namespace (ns name : String) : String :=
  if name == "ReportState" then "Alexa"
  else if name == "SetTargetTemperature" then "Alexa"
  else ns

/-- The response name precomputed in ConnectedHomeCall.__init__
(lines 125-132): StateReport for ReportState, Response for
SetTargetTemperature, otherwise the directive name with .Response
appended. -/
def ctor_response_name (name : String) : String :=
  if name == "ReportState" then "StateReport"
  else if name == "SetTargetTemperature" then "Response"
  else name ++ ".Response"

/-- The payload the two except branches of ConnectedHomeCall.invoke put into
event.payload (lines 178-185): the structured payload of a
ConnectedHomeException, the empty object for any other exception. -/
def errPayload : PyErr → RPayload
  | .chValueOutOfRange mn mx => .vOOR mn mx
  | .pyError _ => .emptyObj

/-- ConnectedHomeCall.invoke (lines 153-187).  The header dict is stored
into the envelope first, from the precomputed self.namespace and
self.response_name; then the handler runs.  On success the payload is the
handler return value or the empty object, the endpoint echo is attached
when an endpoint was given, and context is attached only when
context_properties is nonempty (an empty list is falsy, so the context key
is absent).  On an exception the except branches assign e.payload (or the
empty object) into event.payload; their assignment to self.response_name
happens after the header dict was already built and therefore never reaches
the envelope, and the endpoint and context steps, textually after the
failing handler call, are skipped. -/
def chInvoke (ns response_name messageId : String) (correlationToken : Option String)
    (endpoint : Option String) (result : Except PyErr (Option RPayload))
    (props : List ContextProp) : Envelope :=
  match result with
  | .ok pl =>
      { header := ⟨ns, response_name, "3", messageId, correlationToken⟩
        payload := pl.getD .emptyObj
        endpoint := endpoint
        context := if props.isEmpty then none else some props }
  | .error e =>
      { header := ⟨ns, response_name, "3", messageId, correlationToken⟩
        payload := errPayload e
        endpoint := none
        context := none }

/-- The module-level invoke (lines 561-571) together with
ConnectedHomeCall.__init__ (lines 119-141).  The namespace key is resolved
first (attrgetter raises AttributeError for an unknown key, escaping
invoke, which has no try block); then the constructor runs: it precomputes
namespace and response name and, when an endpoint with an endpointId is
present, builds the entity with mk_entity, whose KeyError for an unknown
domain likewise escapes invoke uncaught.  Only then does
ConnectedHomeCall.invoke run the handler body inside its try block; the
handler body, which Python resolves by attrgetter(name) on the constructed
object, is passed here as a function of the constructed entity. -/
def invoke_toplevel (ns name : String) (endpoint : Option String)
    (messageId : String) (correlationToken : Option String)
    (handler : Option EntityClass → HandlerOut) : Except PyErr Envelope :=
  match lookup_handler_class (resolve_invoke_key ns name) with
  | none => .error (.pyError "AttributeError")
  | some _cls =>
      let ns2 := ctor_namespace ns name
      let rn := ctor_response_name name
      match endpoint with
      | some endpointId =>
          match mk_entity (endpoint_to_entity_id endpointId) with
          | .error e => .error e
          | .ok entity =>
              let out := handler (some entity)
              .ok (chInvoke ns2 rn messageId correlationToken endpoint
                     out.result out.props)
      | none =>
          let out := handler none
          .ok (chInvoke ns2 rn messageId correlationToken endpoint
                 out.result out.props)

/-- Every capability list produced by Entity.get_capabilities ends with the
EndpointHealth descriptor, for every adapter class, domain string and
feature-flag value: the source appends it unconditionally after all other
descriptors. -/
theorem get_capabilities_getLast (cls : EntityClass) (d : String) (f : Nat) :
    (get_capabilities cls d f).getLast? = some endpointHealthCap := by
  unfold get_capabilities
  rw [List.getLast?_concat]

/-- C1: the claim says that on a handler error the envelope header name
equals the error kind name and the payload equals the structured error
payload.  The payload half holds, but the header name does not: invoke
builds the header dict before the handler runs, and the except branches
assign self.response_name only after that, so the envelope keeps the
precomputed success name.  A SetTargetTemperature for climate.living
(unit Celsius, bounds 10 to 30) requesting 35 raises ValueOutOfRangeError:
the response carries the error payload with minimumValue 10 and
maximumValue 30 but header name Response, not ValueOutOfRangeError; an
AdjustTargetTemperature, whose handler raises a generic exception, gets the
empty payload and likewise keeps the precomputed name. -/
theorem invoke_error_keeps_precomputed_header_name :
    invoke_toplevel "Alexa.ThermostatController" "SetTargetTemperature"
        (some "climate:living") "msg-1" none
        (fun _ => setTargetTemperatureHandler
                    ⟨"heat", ⟨"°C", 10, 30, some 20, some 22⟩⟩ 35)
      = .ok ⟨⟨"Alexa", "Response", "3", "msg-1", none⟩, .vOOR 10 30, none, none⟩
    ∧ invoke_toplevel "Alexa.ThermostatController" "AdjustTargetTemperature"
        (some "climate:living") "msg-2" none
        (fun _ => adjustTargetTemperatureHandler
                    ⟨"heat", ⟨"°C", 10, 30, some 20, some 22⟩⟩ 2)
      = .ok ⟨⟨"Alexa.ThermostatController", "AdjustTargetTemperature.Response",
              "3", "msg-2", none⟩, .emptyObj, none, none⟩
    ∧ ("Response" : String) ≠ "ValueOutOfRangeError" :=
  ⟨rfl, rfl, by decide⟩

/-- C2: every AdjustTargetTemperature invocation raises NameError at line
472 because the name op is unbound, before any clamp logic or service call
can run; through the dispatcher this becomes the catch-all internal-error
response with the empty payload, never the clamped set-temperature call the
claim describes. -/
theorem adjustTargetTemperature_always_raises_nameError :
    (∀ (st : ClimateState) (delta : ℚ),
      adjustTargetTemperatureHandler st delta
        = ⟨.error (.pyError "NameError"), [], []⟩)
    ∧ invoke_toplevel "Alexa.ThermostatController" "AdjustTargetTemperature"
        (some "climate:living") "msg-3" none
        (fun _ => adjustTargetTemperatureHandler
                    ⟨"heat", ⟨"°C", 10, 30, some 20, some 22⟩⟩ 2)
      = .ok ⟨⟨"Alexa.ThermostatController", "AdjustTargetTemperature.Response",
              "3", "msg-3", none⟩, .emptyObj, none, none⟩ :=
  ⟨fun _st _delta => rfl, rfl⟩

/-- C3 counterexample: a TurnOn directive for endpoint foo:bar, whose domain
foo is not a key of DOMAINS, makes the dict subscript in mk_entity raise
KeyError inside the ConnectedHomeCall constructor, which runs outside the
try block of invoke: the exception escapes the dispatcher and no envelope,
in particular no UnsupportedDomain error response, is produced. -/
theorem unknown_domain_escapes_as_keyerror :
    invoke_toplevel "Alexa.PowerController" "TurnOn" (some "foo:bar")
        "msg-4" none (fun _ => ⟨.ok none, [], []⟩)
      = .error (.pyError "KeyError") := rfl

/-- C3 (amended): for every directive whose namespace key resolves to a
handler class but whose endpointId has a domain that is not a key of
DOMAINS, the dispatcher raises KeyError out of the entity construction and
the exception escapes invoke uncaught, whatever the handler would have
done. -/
theorem unknown_domain_keyerror_general (ns name endpointId messageId : String)
    (correlationToken : Option String) (handler : Option EntityClass → HandlerOut)
    (hkey : (lookup_handler_class (resolve_invoke_key ns name)).isSome = true)
    (hdom : (DOMAINS.lookup (entity_domain_of
              (endpoint_to_entity_id endpointId))).isNone = true) :
    invoke_toplevel ns name (some endpointId) messageId correlationToken handler
      = .error (.pyError "KeyError") := by
  unfold invoke_toplevel
  rcases h : lookup_handler_class (resolve_invoke_key ns name) with _ | cls
  · rw [h] at hkey; exact absurd hkey (by simp)
  · unfold mk_entity
    rcases h2 : DOMAINS.lookup (entity_domain_of (endpoint_to_entity_id endpointId))
      with _ | c
    · simp [h2]
    · rw [h2] at hdom; simp at hdom

theorem unknown_domain_keyerror_general_witness :
    invoke_toplevel "Alexa.PowerController" "TurnOn" (some "foo:baz")
        "msg-5" none (fun _ => ⟨.ok none, [], []⟩)
      = .error (.pyError "KeyError") :=
  unknown_domain_keyerror_general "Alexa.PowerController" "TurnOn" "foo:baz"
    "msg-5" none (fun _ => ⟨.ok none, [], []⟩) (by decide) (by decide)

/-- C4: a SetTargetTemperature whose requested setpoint lies outside the
device-reported bounds (converted to Celsius as the handler compares them)
fails with ValueOutOfRangeError carrying exactly those bounds as
minimumValue and maximumValue, with no service call recorded, and the
except branch maps that error to the payload with the minimumValue and
maximumValue keys. -/
theorem setTargetTemperature_rejects_out_of_range (st : ClimateState) (req : ℚ)
    (h : req > convert_tempQ st.attrs.max_temp st.attrs.unit_of_measurement "°C"
       ∨ req < convert_tempQ st.attrs.min_temp st.attrs.unit_of_measurement "°C") :
    setTargetTemperatureHandler st req
      = ⟨.error (.chValueOutOfRange
            (convert_tempQ st.attrs.min_temp st.attrs.unit_of_measurement "°C")
            (convert_tempQ st.attrs.max_temp st.attrs.unit_of_measurement "°C")),
         [], []⟩
    ∧ errPayload (.chValueOutOfRange
            (convert_tempQ st.attrs.min_temp st.attrs.unit_of_measurement "°C")
            (convert_tempQ st.attrs.max_temp st.attrs.unit_of_measurement "°C"))
      = .vOOR (convert_tempQ st.attrs.min_temp st.attrs.unit_of_measurement "°C")
          (convert_tempQ st.attrs.max_temp st.attrs.unit_of_measurement "°C") := by
  refine ⟨?_, rfl⟩
  unfold setTargetTemperatureHandler
  rw [if_pos h]

theorem setTargetTemperature_rejects_out_of_range_witness :
    ((35:ℚ) > convert_tempQ 30 "°C" "°C" ∨ (35:ℚ) < convert_tempQ 10 "°C" "°C")
    ∧ setTargetTemperatureHandler ⟨"heat", ⟨"°C", 10, 30, some 20, some 22⟩⟩ 35
        = ⟨.error (.chValueOutOfRange (convert_tempQ 10 "°C" "°C")
             (convert_tempQ 30 "°C" "°C")), [], []⟩ :=
  ⟨Or.inl (by decide),
   (setTargetTemperature_rejects_out_of_range
      ⟨"heat", ⟨"°C", 10, 30, some 20, some 22⟩⟩ 35 (Or.inl (by decide))).1⟩

/-- C5 counterexample: the claim says set_percentage maps 0 to speed off,
but FanEntity.set_percentage sends low for 0, since 0 <= 33 takes the first
branch and the off initializer survives only for values above 100. -/
theorem fan_set_percentage_zero_not_off :
    fan_set_percentage 0 = "low" ∧ fan_set_percentage 0 ≠ "off" := by decide

/-- C5 (amended): the fan speed buckets as the code computes them: 0 maps
to low (not off), 33 to low, 34 to medium, 67 and 100 to high, values above
100 to the off initializer; get_percentage maps off, low, medium, high to
0, 33, 66, 100, so set_percentage(33) followed by get_percentage on the
stored speed returns exactly 33. -/
theorem fan_bucket_mapping :
    fan_set_percentage 0 = "low"
    ∧ fan_set_percentage 33 = "low"
    ∧ fan_get_percentage (fan_set_percentage 33) = some 33
    ∧ fan_set_percentage 34 = "medium"
    ∧ fan_set_percentage 67 = "high"
    ∧ fan_set_percentage 100 = "high"
    ∧ fan_set_percentage 101 = "off"
    ∧ fan_get_percentage "off" = some 0
    ∧ fan_get_percentage "low" = some 33
    ∧ fan_get_percentage "medium" = some 66
    ∧ fan_get_percentage "high" = some 100 := by decide

/-- C6: for every domain of the DOMAINS table and every feature-flag value,
the introspection-based capability list of Entity.get_capabilities matches
the per-domain table of the specification interface for interface, and the
EndpointHealth descriptor is the last element for every adapter class,
domain and feature value unconditionally. -/
theorem capabilities_match_table (d : String) (cls : EntityClass)
    (hp : (d, cls) ∈ DOMAINS) (features : Nat) :
    ((get_capabilities cls d features).map Capability.interface
        = specInterfaces d features)
    ∧ ∀ (cls2 : EntityClass) (d2 : String) (f2 : Nat),
        (get_capabilities cls2 d2 f2).getLast? = some endpointHealthCap := by
  refine ⟨?_, get_capabilities_getLast⟩
  fin_cases hp <;>
    first
    | (simp [get_capabilities, hasMethod, specInterfaces, endpointHealthCap]; done)
    | (by_cases h16 : features &&& 16 = 0 <;> by_cases h2 : features &&& 2 = 0 <;>
        simp [get_capabilities, hasMethod, specInterfaces, endpointHealthCap,
              LIGHT_SUPPORT_RGB_COLOR, LIGHT_SUPPORT_COLOR_TEMP, h16, h2])

theorem capabilities_match_table_witness :
    (("light", EntityClass.LightEntity) ∈ DOMAINS)
    ∧ (((get_capabilities .LightEntity "light" 18).map Capability.interface
        = specInterfaces "light" 18)
      ∧ ∀ (cls2 : EntityClass) (d2 : String) (f2 : Nat),
          (get_capabilities cls2 d2 f2).getLast? = some endpointHealthCap) :=
  ⟨by decide, capabilities_match_table "light" .LightEntity (by decide) 18⟩

/-- C7: a directive with namespace Alexa and name ReportState is looked up
under the combined key Alexa.ReportState, which resolves to the ReportState
handler class, while the bare Alexa key resolves to no handler; and
whatever the handler does, the response envelope header carries namespace
Alexa (rewritten in the constructor) with response name StateReport. -/
theorem reportState_combined_key_routing :
    resolve_invoke_key "Alexa" "ReportState" = "Alexa.ReportState"
    ∧ lookup_handler_class "Alexa.ReportState" = some HandlerClass.ReportState
    ∧ lookup_handler_class "Alexa" = none
    ∧ ∀ (messageId : String) (correlationToken : Option String) (out : HandlerOut),
        (invoke_toplevel "Alexa" "ReportState" (some "climate:hallway")
            messageId correlationToken (fun _ => out)).map
          (fun env => (env.header.ns, env.header.name))
        = Except.ok ("Alexa", "StateReport") := by
  refine ⟨rfl, rfl, rfl, fun m c out => ?_⟩
  obtain ⟨res, calls, props⟩ := out
  cases res <;> rfl

/-- C8 counterexample: a ReportState on a light whose state lacks the
brightness attribute appends the powerState property and then raises
KeyError in get_percentage; the envelope returned by the dispatcher omits
the context key entirely even though one property was appended, refuting
the claim that an appended property always yields a context key. -/
theorem reportState_error_drops_appended_context :
    (reportState_light ⟨"off", none⟩).props
      = [⟨"Alexa.PowerController", "powerState", .str "OFF", 200⟩]
    ∧ invoke_toplevel "Alexa" "ReportState" (some "light:kitchen") "msg-6" none
        (fun _ => reportState_light ⟨"off", none⟩)
      = .ok ⟨⟨"Alexa", "StateReport", "3", "msg-6", none⟩, .emptyObj, none, none⟩ := by
  constructor <;> rfl

/-- C8 (amended): the context key of the response envelope is present
exactly when the handler completed without raising and appended at least
one property, and then holds exactly the appended properties in order; with
zero appended properties, or when the handler raised (even after appending
some), the context key is absent. -/
theorem context_key_presence (ns rn messageId : String)
    (correlationToken endpoint : Option String)
    (result : Except PyErr (Option RPayload)) (props : List ContextProp) :
    (chInvoke ns rn messageId correlationToken endpoint result props).context
      = match result with
        | .ok _ => if props.isEmpty then none else some props
        | .error _ => none := by
  cases result <;> rfl

/-- C9: for the light adapter, set_percentage sends brightness p/100*255
and get_percentage maps a brightness b to b/255*100, so the round trip is
the identity on [0, 100], exactly in rational arithmetic. -/
theorem light_percentage_roundtrip (p : ℚ) (h0 : 0 ≤ p) (h1 : p ≤ 100) :
    light_get_percentage (light_set_percentage p) = p := by
  unfold light_get_percentage light_set_percentage
  ring

theorem light_percentage_roundtrip_witness :
    (0:ℚ) ≤ 50 ∧ (50:ℚ) ≤ 100
    ∧ light_get_percentage (light_set_percentage 50) = 50 :=
  ⟨by norm_num, by norm_num,
   light_percentage_roundtrip 50 (by norm_num) (by norm_num)⟩

/-- C10: for every requested thermostatMode value, the SetThermostatMode
handler performs no service call (the turn_on and turn_off attributes are
referenced but never invoked), appends exactly one thermostatMode context
property echoing the uppercased mode, and succeeds; through the dispatcher
this yields a success envelope with the empty payload, the endpoint echo
and that single context property. -/
theorem setThermostatMode_frame (thermostatMode : String) :
    (setThermostatModeHandler thermostatMode).calls = []
    ∧ (setThermostatModeHandler thermostatMode).result = .ok none
    ∧ (setThermostatModeHandler thermostatMode).props
        = [⟨"Alexa.ThermostatController", "thermostatMode",
            .str (str_toUpper thermostatMode), 200⟩]
    ∧ ∀ (messageId : String) (correlationToken : Option String),
        invoke_toplevel "Alexa.ThermostatController" "SetThermostatMode"
            (some "climate:living") messageId correlationToken
            (fun _ => setThermostatModeHandler thermostatMode)
          = .ok ⟨⟨"Alexa.ThermostatController", "SetThermostatMode.Response", "3",
                  messageId, correlationToken⟩, .emptyObj, some "climate:living",
                 some [⟨"Alexa.ThermostatController", "thermostatMode",
                       .str (str_toUpper thermostatMode), 200⟩]⟩ :=
  ⟨rfl, rfl, rfl, fun _m _c => rfl⟩
example :
    (get_capabilities .ClimateEntity "climate" 0).map Capability.interface
      = specInterfaces "climate" 0 := by decide
example :
    (get_capabilities .LightEntity "light" 18).map Capability.interface
      = specInterfaces "light" 18 := by decide
example :
    setTargetTemperatureHandler ⟨"heat", ⟨"°C", 10, 30, some 20, some 22⟩⟩ 35
      = ⟨.error (.chValueOutOfRange 10 30), [], []⟩ := by rfl
